import Mathlib

/-!
Shallow embedding of src/divvy_demand_map_public.py.

The dashboard loads one table of per-station records, derives utilization
metrics, filters by a minimum capacity, and encodes each record as a map
marker (color, radius) plus three summary counts.  Counts are Python ints
(embedded as ℤ); the derived ratios are Python floats obtained by exact
division of small integers, embedded as ℚ.  A float division by zero in
pandas yields a non-finite value (inf or NaN); such a value is embedded as
`none : Option ℚ`, a finite float `x` as `some x`.  Feeding a non-finite
float to Python int() raises, which the embedding renders as `none` in
`Option (List ℤ)` for the color function.  Network, query and parse effects
are passed in explicitly as `Except`/`Option` arguments, so each adapter is
a total function of its environment, mirroring the try/except blocks that
catch every exception inside the adapter bodies.
-/

/-- Raw station record: the columns present after the merge of the GBFS
station_information and station_status feeds (lines 37-40 of the source),
before the derived columns are appended. -/
structure RawStation where
  station_id : String
  name : String
  lat : ℚ
  lon : ℚ
  capacity : ℤ
  num_bikes_available : ℤ
  num_docks_available : ℤ
deriving DecidableEq

/-- Enriched station record: the raw columns plus the four derived columns
appended at lines 43-46 of the source.  The three ratio columns are floats
and may be non-finite when capacity is zero, hence Option ℚ. -/
structure Station extends RawStation where
  bike_utilization : Option ℚ
  dock_utilization : Option ℚ
  out_of_service_bikes : ℤ
  out_of_service_ratio : Option ℚ
deriving DecidableEq

/-- Python float division of exact integer-valued operands: a finite
rational unless the divisor is zero, in which case inf or NaN (`none`). -/
def floatDiv (a b : ℚ) : Option ℚ :=
  if b = 0 then none else some (a / b)

/-- Metric derivation, lines 43-46 of the source:
df[bike_utilization] = num_bikes_available / capacity,
df[dock_utilization] = num_docks_available / capacity,
df[out_of_service_bikes] = capacity - (num_bikes_available + num_docks_available),
df[out_of_service_ratio] = out_of_service_bikes / capacity.
No zero-capacity guard and no clamping appears in the source. -/
def enrich (r : RawStation) : Station :=
  { toRawStation := r
    bike_utilization := floatDiv (r.num_bikes_available : ℚ) (r.capacity : ℚ)
    dock_utilization := floatDiv (r.num_docks_available : ℚ) (r.capacity : ℚ)
    out_of_service_bikes := r.capacity - (r.num_bikes_available + r.num_docks_available)
    out_of_service_ratio :=
      floatDiv ((r.capacity - (r.num_bikes_available + r.num_docks_available) : ℤ) : ℚ)
        (r.capacity : ℚ) }

/-- Re-running the metric derivation on an already-enriched table: the same
four assignments of lines 43-46 read only the raw columns (which enrichment
preserves) and overwrite the derived columns. -/
def recompute_metrics (s : Station) : Station :=
  enrich s.toRawStation

/-- One row of the GBFS station_information feed (line 37). -/
structure StationInfo where
  station_id : String
  name : String
  lat : ℚ
  lon : ℚ
  capacity : ℤ
deriving DecidableEq

/-- One row of the GBFS station_status feed (line 38). -/
structure StationStatus where
  station_id : String
  num_bikes_available : ℤ
  num_docks_available : ℤ
deriving DecidableEq

/-- pd.merge(info, status, on=station_id), line 40: inner join keeping the
order of the left (information) table; rows missing a partner are dropped. -/
def merge (info : List StationInfo) (status : List StationStatus) :
    List RawStation :=
  info.flatMap fun i =>
    (status.filter fun s => s.station_id = i.station_id).map fun s =>
      { station_id := i.station_id
        name := i.name
        lat := i.lat
        lon := i.lon
        capacity := i.capacity
        num_bikes_available := s.num_bikes_available
        num_docks_available := s.num_docks_available }

/-- load_from_api, lines 31-55.  The whole body sits in one try/except: any
network or parse failure while fetching the two feeds is the `Except.error`
case and yields the empty table; on success the joined table is enriched. -/
def load_from_api
    (fetch : Except String (List StationInfo × List StationStatus)) :
    List Station :=
  match fetch with
  | .error _ => []
  | .ok (info, status) => (merge info status).map enrich

/-- load_from_snowflake, lines 57-93.  `conn = none` embeds
get_snowflake_connection returning None (its own try/except, lines 13-27);
`query = .error` embeds pd.read_sql raising, caught by the adapter's
try/except; `query = .ok rows` is the successful gold-table read, whose
rows already carry the derived columns. -/
def load_from_snowflake (conn : Option Unit)
    (query : Except String (List Station)) : List Station :=
  match conn with
  | none => []
  | some _ =>
    match query with
    | .error _ => []
    | .ok rows => rows

/-- Terminal outcome of one orchestration run. -/
inductive LoadOutcome where
  | primary (table : List Station)
  | degraded (table : List Station)
  | exhausted
deriving DecidableEq

/-- User-facing signal emitted by load_station_data: st.warning at line 111
(backup data in use) or st.error at line 108 followed by st.stop. -/
inductive UserSignal where
  | backupWarning
  | terminalError
deriving DecidableEq

/-- One orchestration run: the outcome together with whether the live-feed
adapter was invoked (the body of the `if df.empty` branch at line 102). -/
structure OrchestratorRun where
  outcome : LoadOutcome
  liveInvoked : Bool
deriving DecidableEq

/-- load_station_data, lines 95-113: try Snowflake; if the result table is
empty, fall back to the API; if that is also empty, st.error and st.stop
(the exhausted outcome); otherwise warn that backup data is in use. -/
def load_station_data (conn : Option Unit)
    (query : Except String (List Station))
    (fetch : Except String (List StationInfo × List StationStatus)) :
    OrchestratorRun :=
  let df := load_from_snowflake conn query
  if df.isEmpty then
    let df2 := load_from_api fetch
    if df2.isEmpty then ⟨.exhausted, true⟩ else ⟨.degraded df2, true⟩
  else
    ⟨.primary df, false⟩

/-- Signal shown to the user for each outcome (lines 108 and 111). -/
def emitted_signal : LoadOutcome → Option UserSignal
  | .primary _ => none
  | .degraded _ => some .backupWarning
  | .exhausted => some .terminalError

/-- Table handed to the downstream stages (filtering at line 125, encoding
at lines 154 and 178, rendering at line 220).  st.stop at line 109 halts
the script, so the exhausted outcome passes no table. -/
def downstream_table : LoadOutcome → Option (List Station)
  | .primary t => some t
  | .degraded t => some t
  | .exhausted => none

/-- Python int() applied to a finite float: truncation toward zero. -/
def pyint (q : ℚ) : ℤ :=
  if 0 ≤ q then ⌊q⌋ else ⌈q⌉

/-- get_station_color, lines 130-151.  total_bikes = num_bikes_available +
out_of_service_bikes; if zero, the fixed light-gray color; otherwise
base = int(255 * bike_utilization), red = int(255 * out_of_service_ratio),
channels [min 255 (base + red), base, base, 200].  When a ratio is
non-finite, int() raises (embedded as `none`). -/
def get_station_color (s : Station) : Option (List ℤ) :=
  if s.num_bikes_available + s.out_of_service_bikes = 0 then
    some [200, 200, 200, 200]
  else
    match s.bike_utilization, s.out_of_service_ratio with
    | some u, some r =>
      let base := pyint (255 * u)
      let red := pyint (255 * r)
      some [min 255 (base + red), base, base, 200]
    | _, _ => none

/-- get_station_radius, lines 157-175: first matching half-open interval of
the size_groups table wins; fallback 3 when no group matches. -/
def get_station_radius (capacity : ℤ) : ℤ :=
  if 0 ≤ capacity ∧ capacity < 10 then 3
  else if 10 ≤ capacity ∧ capacity < 20 then 8
  else if 20 ≤ capacity ∧ capacity < 30 then 15
  else if 30 ≤ capacity ∧ capacity < 50 then 20
  else if 50 ≤ capacity ∧ capacity < 75 then 30
  else if 75 ≤ capacity ∧ capacity < 100 then 40
  else if 100 ≤ capacity then 50
  else 3

/-- filtered_df, line 125: df[df[capacity] >= min_capacity]. -/
def filtered_df (df : List Station) (min_capacity : ℤ) : List Station :=
  df.filter fun r => min_capacity ≤ r.capacity

/-- empty_stations, line 250: rows with num_bikes_available == 0. -/
def empty_stations (df : List Station) : List Station :=
  df.filter fun r => r.num_bikes_available = 0

/-- full_stations, line 254: rows with num_docks_available == 0. -/
def full_stations (df : List Station) : List Station :=
  df.filter fun r => r.num_docks_available = 0

/-- out_of_service, line 258: rows with out_of_service_bikes > 0. -/
def out_of_service (df : List Station) : List Station :=
  df.filter fun r => 0 < r.out_of_service_bikes

/-- The three summary metrics of lines 249-259, computed on the filtered
table for threshold t. -/
def summary_counts (df : List Station) (t : ℤ) : ℕ × ℕ × ℕ :=
  ((empty_stations (filtered_df df t)).length,
   (full_stations (filtered_df df t)).length,
   (out_of_service (filtered_df df t)).length)

/-! ## Helper lemmas -/

/-- For a nonnegative argument, Python truncation agrees with the floor. -/
theorem pyint_of_nonneg (q : ℚ) (h : 0 ≤ q) : pyint q = ⌊q⌋ := by
  simp [pyint, h]

/-- Python truncation of a nonnegative value is nonnegative. -/
theorem pyint_nonneg (q : ℚ) (h : 0 ≤ q) : 0 ≤ pyint q := by
  rw [pyint_of_nonneg q h]
  exact Int.le_floor.mpr (by exact_mod_cast h)

/-- Python truncation of a nonnegative value below an integer bound stays
below that bound. -/
theorem pyint_le_of_le (q : ℚ) (n : ℤ) (h0 : 0 ≤ q) (h : q ≤ (n : ℚ)) :
    pyint q ≤ n := by
  rw [pyint_of_nonneg q h0]
  calc ⌊q⌋ ≤ ⌊(n : ℚ)⌋ := Int.floor_le_floor h
    _ = n := Int.floor_intCast n

/-- Evaluation of the color function on a record enriched from raw counts
with nonzero capacity: both ratio columns are finite, so the non-neutral
branch computes the int-truncated channels. -/
theorem color_enrich_eval (r : RawStation) (h : r.capacity ≠ 0) :
    get_station_color (enrich r) =
      if r.num_bikes_available +
          (r.capacity - (r.num_bikes_available + r.num_docks_available)) = 0 then
        some [200, 200, 200, 200]
      else
        some [min 255
            (pyint (255 * ((r.num_bikes_available : ℚ) / (r.capacity : ℚ))) +
              pyint (255 *
                (((r.capacity - (r.num_bikes_available + r.num_docks_available) : ℤ) : ℚ) /
                  (r.capacity : ℚ)))),
          pyint (255 * ((r.num_bikes_available : ℚ) / (r.capacity : ℚ))),
          pyint (255 * ((r.num_bikes_available : ℚ) / (r.capacity : ℚ))), 200] := by
  have hc : (r.capacity : ℚ) ≠ 0 := by exact_mod_cast h
  simp only [get_station_color, enrich, floatDiv, if_neg hc]

/-! ## Claim theorems -/

set_option maxHeartbeats 1000000 in
/-- C5: get_station_radius realizes the fixed half-open interval table
[0,10)→3, [10,20)→8, [20,30)→15, [30,50)→20, [50,75)→30, [75,100)→40,
[100,∞)→50, defaults to 3 when no interval matches, is monotonically
non-decreasing over non-negative capacities, and hits the boundaries
exactly: radius 10 = 8, radius 20 = 15, radius 100 = 50, radius 15 = 8. -/
theorem C5_radius_interval_table :
    (∀ c : ℤ, 0 ≤ c → c < 10 → get_station_radius c = 3) ∧
    (∀ c : ℤ, 10 ≤ c → c < 20 → get_station_radius c = 8) ∧
    (∀ c : ℤ, 20 ≤ c → c < 30 → get_station_radius c = 15) ∧
    (∀ c : ℤ, 30 ≤ c → c < 50 → get_station_radius c = 20) ∧
    (∀ c : ℤ, 50 ≤ c → c < 75 → get_station_radius c = 30) ∧
    (∀ c : ℤ, 75 ≤ c → c < 100 → get_station_radius c = 40) ∧
    (∀ c : ℤ, 100 ≤ c → get_station_radius c = 50) ∧
    (∀ c : ℤ, c < 0 → get_station_radius c = 3) ∧
    (∀ c₁ c₂ : ℤ, 0 ≤ c₁ → c₁ ≤ c₂ →
      get_station_radius c₁ ≤ get_station_radius c₂) ∧
    (get_station_radius 10 = 8 ∧ get_station_radius 20 = 15 ∧
      get_station_radius 100 = 50 ∧ get_station_radius 15 = 8) := by
  refine ⟨?_, ?_, ?_, ?_, ?_, ?_, ?_, ?_, ?_, by decide, by decide, by decide, by decide⟩ <;>
  · intros
    simp only [get_station_radius]
    split_ifs <;> omega

/-- C5 witness: the table, the default and the monotonicity at concrete
capacities. -/
theorem C5_radius_interval_table_witness :
    get_station_radius 15 = 8 ∧ get_station_radius 120 = 50 ∧
    get_station_radius (-4) = 3 ∧
    get_station_radius 10 ≤ get_station_radius 100 :=
  ⟨C5_radius_interval_table.2.1 15 (by decide) (by decide),
   C5_radius_interval_table.2.2.2.2.2.2.1 120 (by decide),
   C5_radius_interval_table.2.2.2.2.2.2.2.1 (-4) (by decide),
   C5_radius_interval_table.2.2.2.2.2.2.2.2.1 10 100 (by decide) (by decide)⟩

/-- C6: for capacity > 0 the three derived ratios are finite and sum to 1
exactly in rational arithmetic. -/
theorem C6_ratios_sum_to_one (r : RawStation) (h : 0 < r.capacity) :
    ∃ bu du osr : ℚ,
      (enrich r).bike_utilization = some bu ∧
      (enrich r).dock_utilization = some du ∧
      (enrich r).out_of_service_ratio = some osr ∧
      bu + du + osr = 1 := by
  have hc : (r.capacity : ℚ) ≠ 0 := by exact_mod_cast h.ne'
  refine ⟨(r.num_bikes_available : ℚ) / (r.capacity : ℚ),
    (r.num_docks_available : ℚ) / (r.capacity : ℚ),
    ((r.capacity - (r.num_bikes_available + r.num_docks_available) : ℤ) : ℚ) /
      (r.capacity : ℚ), ?_, ?_, ?_, ?_⟩
  · simp [enrich, floatDiv, hc]
  · simp [enrich, floatDiv, hc]
  · simp [enrich, floatDiv, hc]
  · push_cast
    field_simp

/-- C6 witness: the spec's worked example, capacity 15 with 10 bikes and 3
docks available. -/
theorem C6_ratios_sum_to_one_witness :
    ∃ bu du osr : ℚ,
      (enrich ⟨"s", "n", 0, 0, 15, 10, 3⟩).bike_utilization = some bu ∧
      (enrich ⟨"s", "n", 0, 0, 15, 10, 3⟩).dock_utilization = some du ∧
      (enrich ⟨"s", "n", 0, 0, 15, 10, 3⟩).out_of_service_ratio = some osr ∧
      bu + du + osr = 1 :=
  C6_ratios_sum_to_one ⟨"s", "n", 0, 0, 15, 10, 3⟩ (by decide)

/-- C7: metric derivation is idempotent and a pure function of the raw
columns: recomputing the derived columns on an already-enriched table
yields the same table. -/
theorem C7_derivation_idempotent (df : List RawStation) :
    (df.map enrich).map recompute_metrics = df.map enrich := by
  simp only [List.map_map]
  rfl

/-- C8: each adapter is total over its environment: every failure case
(connection None, query error, network or parse error) yields the empty
table, and success yields the populated table (joined and enriched for the
live feed, the gold rows for the warehouse). -/
theorem C8_adapters_return_empty_on_failure :
    (∀ e, load_from_api (.error e) = []) ∧
    (∀ info status,
      load_from_api (.ok (info, status)) = (merge info status).map enrich) ∧
    (∀ q, load_from_snowflake none q = []) ∧
    (∀ e, load_from_snowflake (some ()) (.error e) = []) ∧
    (∀ rows, load_from_snowflake (some ()) (.ok rows) = rows) :=
  ⟨fun _ => rfl, fun _ _ => rfl, fun _ => rfl, fun _ => rfl, fun _ => rfl⟩

/-- A fetch environment in which the GBFS feeds deliver one station whose
information and status rows join on station_id. -/
def demo_fetch : Except String (List StationInfo × List StationStatus) :=
  .ok ([⟨"a", "Demo", 0, 0, 15⟩], [⟨"a", 10, 3⟩])

/-- C1: the orchestrator invokes the live adapter exactly when the
warehouse table is empty; a non-empty live table then becomes the degraded
result (the live adapter's enriched output) with the backup warning; two
empty tables end in the exhausted outcome with the terminal error and no
table passed downstream; a non-empty warehouse table is returned as the
primary result without invoking the live adapter. -/
theorem C1_fallback_orchestration (conn : Option Unit)
    (query : Except String (List Station))
    (fetch : Except String (List StationInfo × List StationStatus)) :
    ((load_station_data conn query fetch).liveInvoked = true ↔
      load_from_snowflake conn query = []) ∧
    (load_from_snowflake conn query = [] → load_from_api fetch ≠ [] →
      (load_station_data conn query fetch).outcome =
        .degraded (load_from_api fetch) ∧
      emitted_signal (load_station_data conn query fetch).outcome =
        some .backupWarning) ∧
    (load_from_snowflake conn query = [] → load_from_api fetch = [] →
      (load_station_data conn query fetch).outcome = .exhausted ∧
      emitted_signal (load_station_data conn query fetch).outcome =
        some .terminalError ∧
      downstream_table (load_station_data conn query fetch).outcome = none) ∧
    (load_from_snowflake conn query ≠ [] →
      (load_station_data conn query fetch).outcome =
        .primary (load_from_snowflake conn query)) := by
  by_cases hw : load_from_snowflake conn query = [] <;>
  by_cases hl : load_from_api fetch = [] <;>
  simp [load_station_data, hw, hl, List.isEmpty_iff, emitted_signal,
    downstream_table]

/-- C1 witness: warehouse connection refused and a live feed with one
station give the degraded outcome carrying the enriched live table; both
sources failing gives the exhausted outcome and no downstream table. -/
theorem C1_fallback_orchestration_witness :
    (load_station_data none (.error "down") demo_fetch).outcome =
      .degraded (load_from_api demo_fetch) ∧
    (load_station_data none (.error "down") (.error "down2")).outcome =
      .exhausted ∧
    downstream_table
      (load_station_data none (.error "down") (.error "down2")).outcome =
      none :=
  ⟨((C1_fallback_orchestration none (.error "down") demo_fetch).2.1
      rfl (by decide)).1,
   ((C1_fallback_orchestration none (.error "down") (.error "down2")).2.2.1
      rfl rfl).1,
   ((C1_fallback_orchestration none (.error "down") (.error "down2")).2.2.1
      rfl rfl).2.2⟩

/-- A raw station record carrying only a capacity, for the filter example. -/
def cap_station (c : ℤ) : RawStation :=
  ⟨"s", "n", 0, 0, c, 0, 0⟩

/-- C9: the minimum-capacity filter is inclusive: for any enriched table
and threshold in [0,60] the filtered table holds exactly the records with
capacity at least the threshold; every surviving record is an enrichment
of a loaded raw record (all derived fields computed) with capacity at
least the threshold; threshold 10 on capacities [5, 10, 20] keeps exactly
the last two. -/
theorem C9_capacity_filter_inclusive (raws : List RawStation) (t : ℤ)
    (h0 : 0 ≤ t) (h60 : t ≤ 60) :
    (∀ s, s ∈ filtered_df (raws.map enrich) t ↔
      s ∈ raws.map enrich ∧ t ≤ s.capacity) ∧
    (∀ s ∈ filtered_df (raws.map enrich) t,
      (∃ r ∈ raws, s = enrich r) ∧ t ≤ s.capacity) ∧
    filtered_df ([cap_station 5, cap_station 10, cap_station 20].map enrich)
        10 =
      [cap_station 10, cap_station 20].map enrich := by
  refine ⟨?_, ?_, by simp [filtered_df, cap_station, List.filter, enrich]⟩
  · intro s
    simp [filtered_df, List.mem_filter]
  · intro s hs
    have h := List.mem_filter.mp hs
    rcases List.mem_map.mp h.1 with ⟨r, hr, rfl⟩
    exact ⟨⟨r, hr, rfl⟩, by simpa using h.2⟩

/-- C9 witness: the filter example at threshold 10. -/
theorem C9_capacity_filter_inclusive_witness :
    filtered_df ([cap_station 5, cap_station 10, cap_station 20].map enrich)
        10 =
      [cap_station 10, cap_station 20].map enrich :=
  (C9_capacity_filter_inclusive [] 10 (by decide) (by decide)).2.2

/-- C10: the three summary counts are computed over the filtered table: a
station below the capacity threshold contributes to none of them, whatever
its bike, dock and out-of-service numbers. -/
theorem C10_counts_over_filtered_table (df : List Station) (t : ℤ)
    (s : Station) (h : s.capacity < t) :
    summary_counts (s :: df) t = summary_counts df t := by
  have hns : ¬ t ≤ s.capacity := not_le.mpr h
  have hf : filtered_df (s :: df) t = filtered_df df t := by
    simp [filtered_df, List.filter_cons, hns]
  simp [summary_counts, hf]

/-- C10 witness: an empty station (zero bikes) of capacity 5 is dropped by
threshold 10 and leaves all three counts of the empty table unchanged. -/
theorem C10_counts_over_filtered_table_witness :
    summary_counts [enrich ⟨"e", "n", 0, 0, 5, 0, 0⟩] 10 =
      summary_counts [] 10 :=
  C10_counts_over_filtered_table [] 10 (enrich ⟨"e", "n", 0, 0, 5, 0, 0⟩)
    (by decide)

/-- C2: what the derivation actually computes on the malformed records the
claim covers: a zero-capacity station keeps non-finite (undefined) ratio
columns instead of a sentinel, and a station whose counts exceed capacity
keeps a negative out_of_service_bikes instead of a zero clamp. -/
theorem C2_derivation_unguarded :
    (enrich ⟨"z", "n", 0, 0, 0, 0, 3⟩).bike_utilization = none ∧
    (enrich ⟨"z", "n", 0, 0, 0, 0, 3⟩).dock_utilization = none ∧
    (enrich ⟨"z", "n", 0, 0, 0, 0, 3⟩).out_of_service_ratio = none ∧
    (enrich ⟨"w", "n", 0, 0, 10, 8, 5⟩).out_of_service_bikes = -3 := by
  refine ⟨rfl, rfl, rfl, by decide⟩

/-- C3 counterexample: at capacity 2 with 1 bike and 1 dock available the
code truncates int(255 * (1/2)) to 127, while the claim's rounded channels
give round(127.5) = 128: the returned color differs from the formula the
claim states. -/
theorem C3_round_counterexample :
    (enrich ⟨"c", "n", 0, 0, 2, 1, 1⟩).bike_utilization = some (1 / 2) ∧
    (enrich ⟨"c", "n", 0, 0, 2, 1, 1⟩).out_of_service_ratio = some 0 ∧
    round ((255 : ℚ) * (1 / 2)) = 128 ∧
    get_station_color (enrich ⟨"c", "n", 0, 0, 2, 1, 1⟩) =
      some [127, 127, 127, 200] ∧
    get_station_color (enrich ⟨"c", "n", 0, 0, 2, 1, 1⟩) ≠
      some [min 255 (round ((255 : ℚ) * (1 / 2)) + round ((255 : ℚ) * 0)),
        round ((255 : ℚ) * (1 / 2)), round ((255 : ℚ) * (1 / 2)), 200] := by
  have hcol : get_station_color (enrich ⟨"c", "n", 0, 0, 2, 1, 1⟩) =
      some [127, 127, 127, 200] := by
    norm_num [get_station_color, enrich, floatDiv, pyint]
  have hround : round ((255 : ℚ) * (1 / 2)) = 128 := by
    norm_num [round_eq]
  have hround0 : round ((255 : ℚ) * 0) = 0 := by norm_num
  refine ⟨?_, ?_, hround, hcol, ?_⟩
  · norm_num [enrich, floatDiv]
  · norm_num [enrich, floatDiv]
  · rw [hcol, hround, hround0]
    decide

/-- C3 (amended): for every record with nonzero capacity the color is the
fixed neutral color when num_bikes_available + out_of_service_bikes = 0,
and otherwise (min(255, base + red_boost), base, base, 200) where base and
red_boost are the int-truncations (toward zero, not roundings) of
255 * bike_utilization and 255 * out_of_service_ratio; the worked example
capacity 15, bikes 10, docks 3 has out_of_service_bikes 2 and color
(204, 170, 170, 200). -/
theorem C3_color_formula :
    (∀ r : RawStation, r.capacity ≠ 0 →
      get_station_color (enrich r) =
        if r.num_bikes_available +
            (r.capacity - (r.num_bikes_available + r.num_docks_available)) =
            0 then
          some [200, 200, 200, 200]
        else
          some [min 255
              (pyint (255 * ((r.num_bikes_available : ℚ) / (r.capacity : ℚ))) +
                pyint (255 *
                  (((r.capacity -
                      (r.num_bikes_available + r.num_docks_available) : ℤ) : ℚ) /
                    (r.capacity : ℚ)))),
            pyint (255 * ((r.num_bikes_available : ℚ) / (r.capacity : ℚ))),
            pyint (255 * ((r.num_bikes_available : ℚ) / (r.capacity : ℚ))),
            200]) ∧
    (enrich ⟨"x", "n", 0, 0, 15, 10, 3⟩).out_of_service_bikes = 2 ∧
    get_station_color (enrich ⟨"x", "n", 0, 0, 15, 10, 3⟩) =
      some [204, 170, 170, 200] := by
  refine ⟨fun r h => color_enrich_eval r h, by decide, ?_⟩
  norm_num [get_station_color, enrich, floatDiv, pyint]

/-- C3 witness: the claimed worked example evaluated through the amended
formula theorem. -/
theorem C3_color_formula_witness :
    get_station_color (enrich ⟨"x", "n", 0, 0, 15, 10, 3⟩) =
      some [204, 170, 170, 200] :=
  C3_color_formula.2.2

/-- C4 counterexample: the record capacity 10, bikes 20, docks 0 passes the
default filter threshold 10 and reaches the color function, which returns
green and blue channels of 510 - outside [0, 255] and above the red
channel - because the ratios are never clamped upstream. -/
theorem C4_channel_counterexample :
    (enrich ⟨"b", "n", 0, 0, 10, 20, 0⟩) ∈
      filtered_df [enrich ⟨"b", "n", 0, 0, 10, 20, 0⟩] 10 ∧
    get_station_color (enrich ⟨"b", "n", 0, 0, 10, 20, 0⟩) =
      some [255, 510, 510, 200] ∧
    ¬ ((510 : ℤ) ≤ 255) := by
  have hce : ⌈(-255 : ℚ)⌉ = -255 := by
    rw [show ((-255 : ℚ)) = ((-255 : ℤ) : ℚ) by norm_num, Int.ceil_intCast]
  refine ⟨?_, ?_, by decide⟩
  · simp [filtered_df, enrich]
  · norm_num [get_station_color, enrich, floatDiv, pyint, hce]

/-- C4 (amended): for every station record whose raw counts are consistent
- nonnegative bikes and docks summing to at most a positive capacity - the
color function returns four integer channels in [0, 255] and the red
channel is at least the green and the blue channel; the counterexample
shows both bounds fail once the counts are inconsistent. -/
theorem C4_channel_bounds (r : RawStation) (hb : 0 ≤ r.num_bikes_available)
    (hd : 0 ≤ r.num_docks_available) (hc : 0 < r.capacity)
    (hs : r.num_bikes_available + r.num_docks_available ≤ r.capacity) :
    ∃ cr cg cb ca : ℤ,
      get_station_color (enrich r) = some [cr, cg, cb, ca] ∧
      0 ≤ cr ∧ cr ≤ 255 ∧ 0 ≤ cg ∧ cg ≤ 255 ∧ 0 ≤ cb ∧ cb ≤ 255 ∧
      0 ≤ ca ∧ ca ≤ 255 ∧ cg ≤ cr ∧ cb ≤ cr := by
  rw [color_enrich_eval r hc.ne']
  by_cases hz : r.num_bikes_available +
      (r.capacity - (r.num_bikes_available + r.num_docks_available)) = 0
  · rw [if_pos hz]
    exact ⟨200, 200, 200, 200, rfl, by norm_num⟩
  · rw [if_neg hz]
    have hcq : (0 : ℚ) < (r.capacity : ℚ) := by exact_mod_cast hc
    have hu0 : 0 ≤ 255 * ((r.num_bikes_available : ℚ) / (r.capacity : ℚ)) := by
      have : (0 : ℚ) ≤ (r.num_bikes_available : ℚ) := by exact_mod_cast hb
      positivity
    have hu255 :
        255 * ((r.num_bikes_available : ℚ) / (r.capacity : ℚ)) ≤
          ((255 : ℤ) : ℚ) := by
      have h1 : (r.num_bikes_available : ℚ) / (r.capacity : ℚ) ≤ 1 :=
        (div_le_one hcq).mpr (by exact_mod_cast by omega)
      calc 255 * ((r.num_bikes_available : ℚ) / (r.capacity : ℚ)) ≤ 255 * 1 :=
            mul_le_mul_of_nonneg_left h1 (by norm_num)
        _ = ((255 : ℤ) : ℚ) := by norm_num
    have ho0 : 0 ≤ 255 *
        (((r.capacity - (r.num_bikes_available + r.num_docks_available) : ℤ) : ℚ) /
          (r.capacity : ℚ)) := by
      have : (0 : ℚ) ≤
          ((r.capacity - (r.num_bikes_available + r.num_docks_available) : ℤ) : ℚ) := by
        exact_mod_cast by omega
      positivity
    have ho255 : 255 *
        (((r.capacity - (r.num_bikes_available + r.num_docks_available) : ℤ) : ℚ) /
          (r.capacity : ℚ)) ≤ ((255 : ℤ) : ℚ) := by
      have h1 :
          ((r.capacity - (r.num_bikes_available + r.num_docks_available) : ℤ) : ℚ) /
            (r.capacity : ℚ) ≤ 1 :=
        (div_le_one hcq).mpr (by exact_mod_cast by omega)
      calc 255 *
          (((r.capacity - (r.num_bikes_available + r.num_docks_available) : ℤ) : ℚ) /
            (r.capacity : ℚ)) ≤ 255 * 1 :=
            mul_le_mul_of_nonneg_left h1 (by norm_num)
        _ = ((255 : ℤ) : ℚ) := by norm_num
    have hbase0 : 0 ≤ pyint (255 *
        ((r.num_bikes_available : ℚ) / (r.capacity : ℚ))) :=
      pyint_nonneg _ hu0
    have hbase255 : pyint (255 *
        ((r.num_bikes_available : ℚ) / (r.capacity : ℚ))) ≤ 255 :=
      pyint_le_of_le _ 255 hu0 hu255
    have hred0 : 0 ≤ pyint (255 *
        (((r.capacity - (r.num_bikes_available + r.num_docks_available) : ℤ) : ℚ) /
          (r.capacity : ℚ))) :=
      pyint_nonneg _ ho0
    refine ⟨_, _, _, _, rfl, le_min (by norm_num) (by omega), min_le_left _ _,
      hbase0, hbase255, hbase0, hbase255, by norm_num, by norm_num,
      le_min hbase255 (by omega), le_min hbase255 (by omega)⟩

/-- C4 witness: the consistent record capacity 15, bikes 10, docks 3 gets
in-range channels with red at least green and blue. -/
theorem C4_channel_bounds_witness :
    ∃ cr cg cb ca : ℤ,
      get_station_color (enrich ⟨"y", "n", 0, 0, 15, 10, 3⟩) =
        some [cr, cg, cb, ca] ∧
      0 ≤ cr ∧ cr ≤ 255 ∧ 0 ≤ cg ∧ cg ≤ 255 ∧ 0 ≤ cb ∧ cb ≤ 255 ∧
      0 ≤ ca ∧ ca ≤ 255 ∧ cg ≤ cr ∧ cb ≤ cr :=
  C4_channel_bounds ⟨"y", "n", 0, 0, 15, 10, 3⟩ (by decide) (by decide)
    (by decide) (by decide)
